import Mathlib

/-!
Verification of the virtual-chat-simulator core: the conversational state
machine, the shared chat store, the speech-input controller and the video
output controller, shallowly embedded from the TypeScript sources
(`src/types/index.ts`, `src/store/chatStore.ts`,
`src/hooks/useSpeechRecognition.ts`, and the `VideoPlayer` component).
-/

/-- The conversational states used by the video player and the speech hook
(`VIDEO_SOURCES` keys in the `VideoPlayer` component). -/
inductive VideoState
  | idle
  | greeting
  | listening
  | response
  | weather
  | goodbye
  | fallback
  | prompt
deriving DecidableEq, Repr, Fintype

/-- Speaker tag of a transcript entry (`types/index.ts`). -/
inductive Speaker
  | user
  | character
deriving DecidableEq, Repr

/-- A transcript entry (`types/index.ts`); `timestamp` is `Date.now()`
milliseconds. -/
structure TranscriptEntry where
  id : String
  speaker : Speaker
  text : String
  timestamp : Nat
deriving DecidableEq, Repr

/-- The shared store state (`ChatState` in `types/index.ts`). -/
structure ChatState where
  currentState : VideoState
  isActive : Bool
  transcript : List TranscriptEntry
  isListening : Bool
  silenceTimer : Option Nat
deriving DecidableEq, Repr

/-- The store state fields, as declared on `ChatState` in `types/index.ts`. -/
def chatStateFieldNames : List String :=
  ["currentState", "isActive", "transcript", "isListening", "silenceTimer"]

/-- The store actions, as declared on `ChatActions` in `chatStore.ts`. -/
def chatActionNames : List String :=
  ["setState", "startChat", "endChat", "addTranscript", "setListening",
   "setSilenceTimer", "resetChat"]

/-- `initialState` from `chatStore.ts`. -/
def initialState : ChatState :=
  { currentState := .idle
    isActive := false
    transcript := []
    isListening := false
    silenceTimer := none }

/-- The store together with the module-level `idCounter` of `chatStore.ts`. -/
structure StoreEnv where
  idCounter : Nat
  chat : ChatState
deriving DecidableEq, Repr

/-- `generateUniqueId` from `chatStore.ts`: increments the module counter and
returns `Date.now() + "-" + counter`; `now` stands for `Date.now()`. -/
def generateUniqueId (now : Nat) (idCounter : Nat) : Nat × String :=
  let c := idCounter + 1
  (c, toString now ++ "-" ++ toString c)

/-- `setState` store action. -/
def setState (s : VideoState) (e : StoreEnv) : StoreEnv :=
  { e with chat := { e.chat with currentState := s } }

/-- `startChat` store action. -/
def startChat (e : StoreEnv) : StoreEnv :=
  { e with chat := { e.chat with isActive := true, currentState := .greeting } }

/-- `endChat` store action: sets only `isActive` and `currentState`
(`isListening` is left as it was). -/
def endChat (e : StoreEnv) : StoreEnv :=
  { e with chat := { e.chat with isActive := false, currentState := .goodbye } }

/-- `addTranscript` store action: appends an entry with a fresh id and the
current time. -/
def addTranscript (speaker : Speaker) (text : String) (now : Nat)
    (e : StoreEnv) : StoreEnv :=
  let p := generateUniqueId now e.idCounter
  { idCounter := p.1
    chat :=
      { e.chat with
        transcript :=
          e.chat.transcript ++
            [{ id := p.2, speaker := speaker, text := text, timestamp := now }] } }

/-- `setListening` store action. -/
def setListening (b : Bool) (e : StoreEnv) : StoreEnv :=
  { e with chat := { e.chat with isListening := b } }

/-- `setSilenceTimer` store action. -/
def setSilenceTimer (t : Option Nat) (e : StoreEnv) : StoreEnv :=
  { e with chat := { e.chat with silenceTimer := t } }

/-- `resetChat` store action: restores `initialState` and resets the
module-level `idCounter` to 0. -/
def resetChat (_e : StoreEnv) : StoreEnv :=
  { idCounter := 0, chat := initialState }

/-- One store operation of a trace; `opAddTranscript` carries the value
`Date.now()` returned at that call. -/
inductive StoreOp
  | opSetState (s : VideoState)
  | opStartChat
  | opEndChat
  | opAddTranscript (speaker : Speaker) (text : String) (now : Nat)
  | opSetListening (b : Bool)
  | opResetChat
deriving DecidableEq, Repr

/-- Apply one store operation. -/
def applyOp : StoreOp → StoreEnv → StoreEnv
  | .opSetState s, e => setState s e
  | .opStartChat, e => startChat e
  | .opEndChat, e => endChat e
  | .opAddTranscript sp t now, e => addTranscript sp t now e
  | .opSetListening b, e => setListening b e
  | .opResetChat, e => resetChat e

/-- Apply a whole trace of store operations. -/
def applyOps (ops : List StoreOp) (e : StoreEnv) : StoreEnv :=
  ops.foldl (fun acc op => applyOp op acc) e

/-- The ids an operation mints when applied in environment `e`. -/
def idsProduced : StoreOp → StoreEnv → List String
  | .opAddTranscript _ _ now, e => [(generateUniqueId now e.idCounter).2]
  | _, _ => []

/-- All entry ids ever produced while running a trace. -/
def generatedIds : List StoreOp → StoreEnv → List String
  | [], _ => []
  | op :: rest, e => idsProduced op e ++ generatedIds rest (applyOp op e)

/-- A JavaScript value, as far as the store object is concerned. Reading an
absent property of an object yields `undef` (JS `undefined`). -/
inductive JsValue
  | undefinedV
  | nullv
  | bool (b : Bool)
  | num (n : Nat)
  | str (s : String)
  | arr (len : Nat)
  | fn (name : String)
deriving DecidableEq, Repr

/-- JS truthiness of a value (`undefined` and `null` are falsy). -/
def jsTruthy : JsValue → Bool
  | .undefinedV => false
  | .nullv => false
  | .bool b => b
  | .num n => n != 0
  | .str s => s != ""
  | .arr _ => true
  | .fn _ => true

/-- Whether a JS value can be invoked as a function. -/
def isCallable : JsValue → Bool
  | .fn _ => true
  | _ => false

/-- Printed name of a conversational state (the string literals used in the
TypeScript union type). -/
def stateName : VideoState → String
  | .idle => "idle"
  | .greeting => "greeting"
  | .listening => "listening"
  | .response => "response"
  | .weather => "weather"
  | .goodbye => "goodbye"
  | .fallback => "fallback"
  | .prompt => "prompt"

/-- The object returned by `useChatStore()`: the `ChatState` fields spread
together with the seven `ChatActions` members, exactly as built in
`chatStore.ts`.  No other property exists on it. -/
def storeObject (st : ChatState) : List (String × JsValue) :=
  [("currentState", .str (stateName st.currentState)),
   ("isActive", .bool st.isActive),
   ("transcript", .arr st.transcript.length),
   ("isListening", .bool st.isListening),
   ("silenceTimer", match st.silenceTimer with | none => .nullv | some n => .num n),
   ("setState", .fn "setState"),
   ("startChat", .fn "startChat"),
   ("endChat", .fn "endChat"),
   ("addTranscript", .fn "addTranscript"),
   ("setListening", .fn "setListening"),
   ("setSilenceTimer", .fn "setSilenceTimer"),
   ("resetChat", .fn "resetChat")]

/-- JS property read: the named member if present, `undefined` otherwise. -/
def getMember (o : List (String × JsValue)) (k : String) : JsValue :=
  match o.find? (fun p => p.1 == k) with
  | some p => p.2
  | none => .undefinedV

/-- `shouldBeListening` from `useSpeechRecognition.ts` (lines 79-85), as a
pure function of the three inputs it reads:
`(currentState === "listening" || currentState === "prompt") && isActive &&
!isCharacterSpeaking`. -/
def shouldBeListening (currentState : VideoState)
    (isActive isCharacterSpeaking : Bool) : Bool :=
  (currentState == .listening || currentState == .prompt) && isActive &&
    !isCharacterSpeaking

/-- Modelled from the spec: the listening-eligibility predicate as the spec
states it — eligible iff `isActive ∧ ¬isCharacterSpeaking ∧ currentState ∈
{listening, prompt, response, weather, fallback}`.  Kept separate from
`shouldBeListening` (the code's predicate) for the refinement comparison. -/
def specEligible (currentState : VideoState)
    (isActive isCharacterSpeaking : Bool) : Bool :=
  isActive && !isCharacterSpeaking &&
    ([VideoState.listening, .prompt, .response, .weather, .fallback].contains
      currentState)

/-- The value the hook actually reads for `isCharacterSpeaking` when it
destructures `useChatStore()` — a JS property read on the store object,
coerced to a boolean by the `!` in `shouldBeListening`. -/
def isCharacterSpeakingRead (st : ChatState) : Bool :=
  jsTruthy (getMember (storeObject st) "isCharacterSpeaking")

/-- `SILENCE_TIMEOUT` from `useSpeechRecognition.ts`. -/
def SILENCE_TIMEOUT : Nat := 8000

/-- `RESTART_DELAY` from `useSpeechRecognition.ts`. -/
def RESTART_DELAY : Nat := 500

/-- `LISTEN_COOLDOWN` from `useSpeechRecognition.ts`. -/
def LISTEN_COOLDOWN : Nat := 1500

/-- The state of the speech hook: the shared store plus the hook's refs.
`recInit` is whether `recognitionRef.current` is non-null; each timer slot
holds the delay it was armed with while pending; `engineStarts` and
`engineStops` count the calls issued to the recognition engine. -/
structure HookState where
  store : StoreEnv
  recInit : Bool
  isRunning : Bool
  silenceTimer : Option Nat
  restartTimer : Option Nat
  listenStartTimer : Option Nat
  engineStarts : Nat
  engineStops : Nat
deriving DecidableEq, Repr

/-- The hook's eligibility check as evaluated at run time: the store's
`currentState` and `isActive` plus the (absent) `isCharacterSpeaking`
member. -/
def hookEligible (s : HookState) : Bool :=
  shouldBeListening s.store.chat.currentState s.store.chat.isActive
    (isCharacterSpeakingRead s.store.chat)

/-- `startRecognition` from `useSpeechRecognition.ts` (lines 150-184): no-op
if uninitialized or already running; otherwise start the engine, mark
running, notify listening, and (re)arm the silence timer.  The engine's
`start()` is modelled as succeeding (§6 contract). -/
def startRecognition (s : HookState) : HookState :=
  if !s.recInit || s.isRunning then s
  else
    { s with
      engineStarts := s.engineStarts + 1
      isRunning := true
      store := setListening true s.store
      silenceTimer := some SILENCE_TIMEOUT }

/-- `stopRecognition` from `useSpeechRecognition.ts` (lines 189-210): no-op
if uninitialized or not running; otherwise stop the engine, mark
not-running, notify listening=false and clear the silence and restart
timers.  The engine's `stop()` is modelled as succeeding (§6 contract). -/
def stopRecognition (s : HookState) : HookState :=
  if !s.recInit || !s.isRunning then s
  else
    { s with
      engineStops := s.engineStops + 1
      isRunning := false
      store := setListening false s.store
      silenceTimer := none
      restartTimer := none }

/-- The teardown effect of `useSpeechRecognition.ts` (lines 329-348): when
the chat is inactive, cancel the silence, restart and listen-start timers
and force a stop if recognition is running. -/
def teardownEffect (s : HookState) : HookState :=
  if s.store.chat.isActive then s
  else
    let s1 := { s with silenceTimer := none, restartTimer := none,
                       listenStartTimer := none }
    if s1.isRunning then stopRecognition s1 else s1

/-- `recognition.onend` from `useSpeechRecognition.ts` (lines 246-265): mark
not running, notify listening=false, clear any pending restart timer, and
re-arm a restart after `RESTART_DELAY` only if still eligible to listen. -/
def onEnd (s : HookState) : HookState :=
  let s1 := { s with isRunning := false, store := setListening false s.store,
                     restartTimer := none }
  if hookEligible s1 then { s1 with restartTimer := some RESTART_DELAY } else s1

/-- The silence-timer callback armed in `startRecognition` and
`processSpeech`: transition to `prompt` and append the "Are you still
there?" character line.  Firing consumes the timer; nothing else changes. -/
def silenceTimerFire (now : Nat) (s : HookState) : HookState :=
  { s with
    silenceTimer := none
    store := addTranscript .character "Are you still there?" now
      (setState .prompt s.store) }

/-- JS `String.prototype.toLowerCase` restricted to the basic latin range
(the only characters the keyword matching cares about). -/
def jsToLowerCase (s : String) : String :=
  ⟨s.data.map Char.toLower⟩

/-- JS `String.prototype.trim`: strip leading and trailing whitespace. -/
def jsTrim (s : String) : String :=
  ⟨((s.data.dropWhile Char.isWhitespace).reverse.dropWhile
      Char.isWhitespace).reverse⟩

/-- Whether `pat` occurs as a prefix of `l`. -/
def isPrefixOfCL : List Char → List Char → Bool
  | [], _ => true
  | _ :: _, [] => false
  | a :: as, b :: bs => a == b && isPrefixOfCL as bs

/-- Whether `pat` occurs as a contiguous run inside `l`. -/
def includesAux (pat : List Char) : List Char → Bool
  | [] => pat.isEmpty
  | c :: rest => isPrefixOfCL pat (c :: rest) || includesAux pat rest

/-- JS `String.prototype.includes`: substring containment. -/
def jsIncludes (s pat : String) : Bool :=
  includesAux pat.data s.data

/-- `processSpeech` from `useSpeechRecognition.ts` (lines 90-145): append
the utterance as a user entry, classify the lower-cased trimmed text by the
keyword chain, set the matched state and append the fixed character reply,
then re-arm the silence timer if the eligibility snapshot taken when the
callback was entered says the hook should still be listening. -/
def processSpeech (transcript : String) (now : Nat) (s : HookState) :
    HookState :=
  let eligible := hookEligible s
  let text := jsTrim (jsToLowerCase transcript)
  let e1 := addTranscript .user transcript now s.store
  let e2 :=
    if jsIncludes text "hello" || jsIncludes text "hi" then
      addTranscript .character "Hello! How are you?" now (setState .greeting e1)
    else if jsIncludes text "weather" || jsIncludes text "today" then
      addTranscript .character "It's a beautiful day!" now (setState .weather e1)
    else if jsIncludes text "goodbye" || jsIncludes text "bye" then
      addTranscript .character "Goodbye! See you next time!" now
        (setState .goodbye e1)
    else
      addTranscript .character "Interesting! Tell me more." now
        (setState .response e1)
  let s2 := { s with store := e2 }
  if eligible then { s2 with silenceTimer := some SILENCE_TIMEOUT } else s2

/-- Modelled from the spec: the ordered keyword groups of §4.3, each with
its target state and fixed character reply. -/
def keywordGroups : List (List String × VideoState × String) :=
  [(["hello", "hi"], (.greeting, "Hello! How are you?")),
   (["weather", "today"], (.weather, "It's a beautiful day!")),
   (["goodbye", "bye"], (.goodbye, "Goodbye! See you next time!"))]

/-- Modelled from the spec: classify an utterance by case-insensitive
substring match against the ordered keyword groups, first match winning;
no match yields the `response` state and its fixed reply. -/
def specClassify (utterance : String) : VideoState × String :=
  let text := jsTrim (jsToLowerCase utterance)
  match keywordGroups.find? (fun g => g.1.any (fun k => jsIncludes text k)) with
  | some g => g.2
  | none => (.response, "Interesting! Tell me more.")

/-- `VIDEO_FALLBACKS` from the `VideoPlayer` component: the fallback chain
used when a state's video failed to load. -/
def VIDEO_FALLBACKS : VideoState → Option VideoState
  | .response => some .listening
  | .weather => some .listening
  | .goodbye => some .idle
  | _ => none

/-- `LOOPING_STATES` from the `VideoPlayer` component. -/
def LOOPING_STATES : List VideoState := [.idle, .listening]

/-- `SPEAKING_STATES` from the `VideoPlayer` component. -/
def SPEAKING_STATES : List VideoState :=
  [.greeting, .response, .weather, .goodbye, .fallback, .prompt]

/-- The loop body of `getEffectiveState`, with explicit fuel: while the
current state's video failed and it has a fallback, follow the chain; a
revisit resolves to `idle`.  `failed` is the `failedVideos` set. -/
def getEffectiveStateAux (failed : VideoState → Bool) :
    Nat → List VideoState → VideoState → VideoState
  | 0, _, current => current
  | fuel + 1, visited, current =>
    if failed current then
      match VIDEO_FALLBACKS current with
      | some next =>
        if current ∈ visited then .idle
        else getEffectiveStateAux failed fuel (current :: visited) next
      | none => current
    else current

/-- `getEffectiveState` from the `VideoPlayer` component (lines 121-134),
run with fuel 8 — the number of conversational states, enough for the loop
to run to completion (proved below). -/
def getEffectiveState (failed : VideoState → Bool) (state : VideoState) :
    VideoState :=
  getEffectiveStateAux failed 8 [] state

/-- What `handleVideoEnd` requests for a given ended state. -/
inductive VideoEndAction
  | setTo (s : VideoState)
  | scheduleReset (delay : Nat)
  | noop
deriving DecidableEq, Repr

/-- `handleVideoEnd` from the `VideoPlayer` component (lines 177-198): the
end-of-playback transition table.  `goodbye` schedules `resetChat` after a
500 ms grace delay; states without a switch case (idle, listening) do
nothing. -/
def handleVideoEnd : VideoState → VideoEndAction
  | .greeting => .setTo .listening
  | .response => .setTo .listening
  | .weather => .setTo .listening
  | .goodbye => .scheduleReset 500
  | .prompt => .setTo .listening
  | .fallback => .setTo .listening
  | .idle => .noop
  | .listening => .noop

/-- A concrete failed-video set: `response` and `listening` failed. -/
def failedRL : VideoState → Bool :=
  fun s => s == .response || s == .listening

/-- A concrete hook state: chat ended while recognition is still running
and timers are pending. -/
def sampleTeardown : HookState :=
  { store := ⟨3, { currentState := .goodbye, isActive := false,
                   transcript := [], isListening := true,
                   silenceTimer := none }⟩
    recInit := true
    isRunning := true
    silenceTimer := some 8000
    restartTimer := some 500
    listenStartTimer := some 1500
    engineStarts := 1
    engineStops := 0 }

/-- A concrete hook state in which recognition was never started. -/
def sampleStopped : HookState :=
  { store := ⟨0, initialState⟩
    recInit := true
    isRunning := false
    silenceTimer := none
    restartTimer := none
    listenStartTimer := none
    engineStarts := 0
    engineStops := 0 }

lemma isCharacterSpeakingRead_false (st : ChatState) :
    isCharacterSpeakingRead st = false := rfl

lemma hookEligible_of_inactive (s : HookState)
    (h : s.store.chat.isActive = false) : hookEligible s = false := by
  simp [hookEligible, shouldBeListening, h]

/-- C1 counterexample: in the `response` state with the session active and
the character silent, the spec's five-state eligibility predicate says
eligible but the code's `shouldBeListening` does not. -/
theorem c1_eligibility_counterexample :
    shouldBeListening .response true false = false ∧
    specEligible .response true false = true := by decide

/-- C1 (amended): `shouldBeListening` is true exactly when `isActive` is
true, `isCharacterSpeaking` is false and `currentState` is `listening` or
`prompt` — the eligibility set is `{listening, prompt}`, not the spec's
five states; as a pure function of its three inputs it is trivially
deterministic. -/
theorem c1_eligibility_amended :
    ∀ (s : VideoState) (a c : Bool),
      shouldBeListening s a c = true ↔
        (a = true ∧ c = false ∧ (s = .listening ∨ s = .prompt)) := by decide

/-- C3: the failing trace — an entry appended at `Date.now() = 5`, then
`resetChat` (which resets `idCounter` to 0), then another entry appended in
the same millisecond — makes `generateUniqueId` mint the id `"5-1"`
twice. -/
theorem c3_duplicate_id :
    generatedIds
      [.opAddTranscript .user "first utterance" 5, .opResetChat,
       .opAddTranscript .user "second utterance" 5]
      ⟨0, initialState⟩ = ["5-1", "5-1"] := by decide

/-- C6: the end-of-playback table — greeting, response, weather, prompt and
fallback each request `listening`; `goodbye` schedules a full session reset
(`resetChat`, which restores the initial store and counter) after a 500 ms
grace delay; `idle` and `listening` are looping states and trigger no
transition. -/
theorem c6_video_end_table :
    handleVideoEnd .greeting = .setTo .listening ∧
    handleVideoEnd .response = .setTo .listening ∧
    handleVideoEnd .weather = .setTo .listening ∧
    handleVideoEnd .prompt = .setTo .listening ∧
    handleVideoEnd .fallback = .setTo .listening ∧
    handleVideoEnd .goodbye = .scheduleReset 500 ∧
    handleVideoEnd .idle = .noop ∧
    handleVideoEnd .listening = .noop ∧
    LOOPING_STATES = [.idle, .listening] ∧
    (∀ e : StoreEnv, resetChat e = ⟨0, initialState⟩) :=
  ⟨rfl, rfl, rfl, rfl, rfl, rfl, rfl, rfl, rfl, fun _ => rfl⟩

/-- C9: `stopRecognition` on a not-running (or never-initialized)
recognition session returns the state unchanged — no engine stop, no flag
change, no timer touched. -/
theorem c9_stop_noop :
    ∀ s : HookState, s.isRunning = false ∨ s.recInit = false →
      stopRecognition s = s := by
  intro s h
  rcases h with h | h <;> simp [stopRecognition, h]

/-- C9 witness: stopping the never-started sample state is a no-op. -/
theorem c9_stop_noop_witness :
    stopRecognition sampleStopped = sampleStopped :=
  c9_stop_noop sampleStopped (Or.inl rfl)

/-- C10: the store declares no `isCharacterSpeaking` field and no
`setCharacterSpeaking` action; reading either member of the store object
yields `undefined`, so the `¬isCharacterSpeaking` conjunct of
`shouldBeListening` is always satisfied and the video controller's
`setCharacterSpeaking` call target is not callable. -/
theorem c10_no_speaking_member :
    (chatStateFieldNames.contains "isCharacterSpeaking") = false ∧
    (chatActionNames.contains "setCharacterSpeaking") = false ∧
    (∀ st : ChatState,
      getMember (storeObject st) "isCharacterSpeaking" = .undefinedV) ∧
    (∀ st : ChatState,
      isCallable (getMember (storeObject st) "setCharacterSpeaking") = false) ∧
    (∀ st : ChatState,
      shouldBeListening st.currentState st.isActive
          (jsTruthy (getMember (storeObject st) "isCharacterSpeaking")) =
        ((st.currentState == .listening || st.currentState == .prompt) &&
          st.isActive)) := by
  refine ⟨by decide, by decide, fun st => rfl, fun st => rfl, fun st => ?_⟩
  have h : getMember (storeObject st) "isCharacterSpeaking" = .undefinedV := rfl
  simp [h, shouldBeListening, jsTruthy]

lemma teardownEffect_spec (s : HookState) (h1 : s.recInit = true)
    (h2 : s.isRunning = true) (h3 : s.store.chat.isActive = false) :
    teardownEffect s =
      { s with
        silenceTimer := none
        restartTimer := none
        listenStartTimer := none
        engineStops := s.engineStops + 1
        isRunning := false
        store := setListening false s.store } := by
  simp [teardownEffect, h1, h2, h3, stopRecognition]

lemma onEnd_inactive (t : HookState) (h : t.store.chat.isActive = false) :
    (onEnd t).restartTimer = none := by
  simp only [onEnd]
  rw [hookEligible_of_inactive]
  · simp
  · simp [setListening, h]

/-- C4: when the session is inactive while recognition is running, the
teardown effect cancels the silence, restart and listen-start timers, stops
the engine, clears the running and listening flags, and the engine's
subsequent `onend` schedules no restart (the eligibility re-check sees the
inactive session). -/
theorem c4_teardown :
    ∀ s : HookState, s.recInit = true → s.isRunning = true →
      s.store.chat.isActive = false →
      (teardownEffect s).silenceTimer = none ∧
      (teardownEffect s).restartTimer = none ∧
      (teardownEffect s).listenStartTimer = none ∧
      (teardownEffect s).isRunning = false ∧
      (teardownEffect s).store.chat.isListening = false ∧
      (teardownEffect s).store.chat.isActive = false ∧
      (teardownEffect s).engineStops = s.engineStops + 1 ∧
      (onEnd (teardownEffect s)).restartTimer = none := by
  intro s h1 h2 h3
  rw [teardownEffect_spec s h1 h2 h3]
  refine ⟨rfl, rfl, rfl, rfl, by simp [setListening], by simp [setListening, h3],
          rfl, ?_⟩
  exact onEnd_inactive _ (by simp [setListening, h3])

/-- C4 witness: the teardown conclusions at the concrete ended-while-running
sample state. -/
theorem c4_teardown_witness :
    (teardownEffect sampleTeardown).silenceTimer = none ∧
    (teardownEffect sampleTeardown).restartTimer = none ∧
    (teardownEffect sampleTeardown).listenStartTimer = none ∧
    (teardownEffect sampleTeardown).isRunning = false ∧
    (teardownEffect sampleTeardown).store.chat.isListening = false ∧
    (teardownEffect sampleTeardown).store.chat.isActive = false ∧
    (teardownEffect sampleTeardown).engineStops =
      sampleTeardown.engineStops + 1 ∧
    (onEnd (teardownEffect sampleTeardown)).restartTimer = none :=
  c4_teardown sampleTeardown rfl rfl rfl

/-- C7: the silence timeout is 8000 ms; firing the silence timer sets the
state to `prompt` and appends the character line "Are you still there?"
while leaving the running flag, the listening flag and the engine stop
count untouched; `startRecognition` arms the timer with
`SILENCE_TIMEOUT`. -/
theorem c7_silence_prompt :
    SILENCE_TIMEOUT = 8000 ∧
    (∀ (now : Nat) (s : HookState),
      (silenceTimerFire now s).store.chat.currentState = .prompt ∧
      (silenceTimerFire now s).store.chat.transcript.map
          (fun e => (e.speaker, e.text)) =
        s.store.chat.transcript.map (fun e => (e.speaker, e.text)) ++
          [(Speaker.character, "Are you still there?")] ∧
      (silenceTimerFire now s).isRunning = s.isRunning ∧
      (silenceTimerFire now s).store.chat.isListening =
        s.store.chat.isListening ∧
      (silenceTimerFire now s).engineStops = s.engineStops) ∧
    (∀ s : HookState, s.recInit = true → s.isRunning = false →
      (startRecognition s).silenceTimer = some SILENCE_TIMEOUT ∧
      (startRecognition s).isRunning = true) := by
  refine ⟨rfl, fun now s => ?_, fun s h1 h2 => ?_⟩
  · refine ⟨rfl, ?_, rfl, rfl, rfl⟩
    simp [silenceTimerFire, addTranscript, setState]
  · constructor <;> simp [startRecognition, h1, h2]

/-- C7 witness: starting recognition from the stopped sample state arms the
silence timer with the 8000 ms timeout. -/
theorem c7_silence_prompt_witness :
    (startRecognition sampleStopped).silenceTimer = some SILENCE_TIMEOUT ∧
    (startRecognition sampleStopped).isRunning = true :=
  c7_silence_prompt.2.2 sampleStopped rfl rfl

/-- C8 counterexample: the reachable trace start → greeting video ends
(state `listening`) → recognition starts (`setListening true`) → End button
(`endChat`) leaves the store with `isListening = true` while
`isActive = false`, because `endChat` does not touch `isListening`. -/
theorem c8_listening_counterexample :
    (applyOps
      [.opStartChat, .opSetState .listening, .opSetListening true, .opEndChat]
      ⟨0, initialState⟩).chat.isListening = true ∧
    (applyOps
      [.opStartChat, .opSetState .listening, .opSetListening true, .opEndChat]
      ⟨0, initialState⟩).chat.isActive = false := by decide

/-- C8 (amended): `endChat` sets `isActive` to false and leaves
`isListening` unchanged, so immediately after `endChat` the flag may still
be true; the invariant `isListening → isActive` is restored by the teardown
effect, which forces `isListening` to false once the session is
inactive. -/
theorem c8_listening_amended :
    (∀ e : StoreEnv, (endChat e).chat.isListening = e.chat.isListening ∧
      (endChat e).chat.isActive = false) ∧
    (∀ s : HookState, s.recInit = true → s.isRunning = true →
      s.store.chat.isActive = false →
      (teardownEffect s).store.chat.isListening = false ∧
      (teardownEffect s).store.chat.isActive = false) := by
  refine ⟨fun e => ⟨rfl, rfl⟩, fun s h1 h2 h3 => ?_⟩
  rw [teardownEffect_spec s h1 h2 h3]
  exact ⟨by simp [setListening], by simp [setListening, h3]⟩

/-- C8 witness: after the teardown effect runs on the concrete
ended-while-running sample state, the store is not listening and not
active. -/
theorem c8_listening_amended_witness :
    (teardownEffect sampleTeardown).store.chat.isListening = false ∧
    (teardownEffect sampleTeardown).store.chat.isActive = false :=
  c8_listening_amended.2 sampleTeardown rfl rfl rfl


lemma aux_noFallback (failed : VideoState → Bool) (c : VideoState)
    (h : VIDEO_FALLBACKS c = none) (fuel : Nat) (visited : List VideoState) :
    getEffectiveStateAux failed fuel visited c = c := by
  cases fuel with
  | zero => rfl
  | succ n => simp [getEffectiveStateAux, h]

lemma aux_unfold (failed : VideoState → Bool) (fuel : Nat)
    (visited : List VideoState) (current : VideoState) :
    getEffectiveStateAux failed (fuel + 1) visited current =
      if failed current then
        match VIDEO_FALLBACKS current with
        | some next =>
          if current ∈ visited then .idle
          else getEffectiveStateAux failed fuel (current :: visited) next
        | none => current
      else current := rfl

lemma aux_stable (failed : VideoState → Bool) (s : VideoState) (k : Nat)
    (visited : List VideoState) :
    getEffectiveStateAux failed (k + 2) visited s =
      getEffectiveStateAux failed 2 visited s := by
  cases s
  case idle =>
    rw [aux_noFallback failed .idle rfl, aux_noFallback failed .idle rfl]
  case greeting =>
    rw [aux_noFallback failed .greeting rfl, aux_noFallback failed .greeting rfl]
  case listening =>
    rw [aux_noFallback failed .listening rfl,
        aux_noFallback failed .listening rfl]
  case fallback =>
    rw [aux_noFallback failed .fallback rfl, aux_noFallback failed .fallback rfl]
  case prompt =>
    rw [aux_noFallback failed .prompt rfl, aux_noFallback failed .prompt rfl]
  case response =>
    show getEffectiveStateAux failed ((k + 1) + 1) visited .response =
      getEffectiveStateAux failed (1 + 1) visited .response
    rw [aux_unfold, aux_unfold]
    simp only [VIDEO_FALLBACKS]
    rw [aux_noFallback failed .listening rfl, aux_noFallback failed .listening rfl]
  case weather =>
    show getEffectiveStateAux failed ((k + 1) + 1) visited .weather =
      getEffectiveStateAux failed (1 + 1) visited .weather
    rw [aux_unfold, aux_unfold]
    simp only [VIDEO_FALLBACKS]
    rw [aux_noFallback failed .listening rfl, aux_noFallback failed .listening rfl]
  case goodbye =>
    show getEffectiveStateAux failed ((k + 1) + 1) visited .goodbye =
      getEffectiveStateAux failed (1 + 1) visited .goodbye
    rw [aux_unfold, aux_unfold]
    simp only [VIDEO_FALLBACKS]
    rw [aux_noFallback failed .idle rfl, aux_noFallback failed .idle rfl]

lemma getEffectiveState_fuelFree (failed : VideoState → Bool)
    (s : VideoState) (k : Nat) :
    getEffectiveStateAux failed (k + 8) [] s = getEffectiveState failed s := by
  have h1 : getEffectiveStateAux failed (k + 8) [] s =
      getEffectiveStateAux failed 2 [] s := by
    rw [show k + 8 = (k + 6) + 2 from rfl]
    exact aux_stable failed s (k + 6) []
  have h2 : getEffectiveState failed s = getEffectiveStateAux failed 2 [] s := by
    show getEffectiveStateAux failed 8 [] s = _
    rw [show (8 : Nat) = 6 + 2 from rfl]
    exact aux_stable failed s 6 []
  rw [h1, h2]

lemma effective_noFallback_self (failed : VideoState → Bool) (c : VideoState)
    (h : VIDEO_FALLBACKS c = none) : getEffectiveState failed c = c := by
  rw [getEffectiveState, aux_noFallback failed c h]

lemma effective_failed_noFallback (failed : VideoState → Bool)
    (s : VideoState) (h : failed (getEffectiveState failed s) = true) :
    VIDEO_FALLBACKS (getEffectiveState failed s) = none := by
  cases s
  case idle =>
    rw [effective_noFallback_self failed .idle rfl]
    rfl
  case greeting =>
    rw [effective_noFallback_self failed .greeting rfl]
    rfl
  case listening =>
    rw [effective_noFallback_self failed .listening rfl]
    rfl
  case fallback =>
    rw [effective_noFallback_self failed .fallback rfl]
    rfl
  case prompt =>
    rw [effective_noFallback_self failed .prompt rfl]
    rfl
  case response =>
    cases hf : failed .response with
    | false =>
      have hr : getEffectiveState failed .response = .response := by
        rw [getEffectiveState, show (8 : Nat) = 7 + 1 from rfl, aux_unfold, hf]
        simp
      rw [hr] at h
      rw [hf] at h
      exact absurd h (by simp)
    | true =>
      have hr : getEffectiveState failed .response = .listening := by
        rw [getEffectiveState, show (8 : Nat) = 7 + 1 from rfl, aux_unfold, hf]
        simp only [VIDEO_FALLBACKS, if_true, List.not_mem_nil, if_false]
        rw [aux_noFallback failed .listening rfl]
      rw [hr]
      rfl
  case weather =>
    cases hf : failed .weather with
    | false =>
      have hr : getEffectiveState failed .weather = .weather := by
        rw [getEffectiveState, show (8 : Nat) = 7 + 1 from rfl, aux_unfold, hf]
        simp
      rw [hr] at h
      rw [hf] at h
      exact absurd h (by simp)
    | true =>
      have hr : getEffectiveState failed .weather = .listening := by
        rw [getEffectiveState, show (8 : Nat) = 7 + 1 from rfl, aux_unfold, hf]
        simp only [VIDEO_FALLBACKS, if_true, List.not_mem_nil, if_false]
        rw [aux_noFallback failed .listening rfl]
      rw [hr]
      rfl
  case goodbye =>
    cases hf : failed .goodbye with
    | false =>
      have hr : getEffectiveState failed .goodbye = .goodbye := by
        rw [getEffectiveState, show (8 : Nat) = 7 + 1 from rfl, aux_unfold, hf]
        simp
      rw [hr] at h
      rw [hf] at h
      exact absurd h (by simp)
    | true =>
      have hr : getEffectiveState failed .goodbye = .idle := by
        rw [getEffectiveState, show (8 : Nat) = 7 + 1 from rfl, aux_unfold, hf]
        simp only [VIDEO_FALLBACKS, if_true, List.not_mem_nil, if_false]
        rw [aux_noFallback failed .idle rfl]
      rw [hr]
      rfl

/-- C2 counterexample: with the videos for `response` and `listening` both
failed, `getEffectiveState response` returns `listening`, a failed state
different from `idle` — the loop exits as soon as the current state has no
fallback entry, failed or not. -/
theorem c2_fallback_counterexample :
    getEffectiveState failedRL .response = .listening ∧
    failedRL .listening = true ∧
    (VideoState.listening == VideoState.idle) = false := by decide

/-- C2 (amended): for every failed set and start state, `getEffectiveState`
terminates within N = 8 fallback hops — any fuel beyond 8 yields the same
result — and the returned state, when its video is marked failed, is one
with no fallback entry (which includes `idle`); it need not be `idle`. -/
theorem c2_fallback_amended :
    ∀ (failed : VideoState → Bool) (s : VideoState) (k : Nat),
      getEffectiveStateAux failed (k + 8) [] s = getEffectiveState failed s ∧
      (failed (getEffectiveState failed s) = true →
        VIDEO_FALLBACKS (getEffectiveState failed s) = none) :=
  fun failed s k =>
    ⟨getEffectiveState_fuelFree failed s k,
     effective_failed_noFallback failed s⟩

/-- C2 witness: at the concrete failed set `{response, listening}` the
resolved state `listening` is failed and indeed has no fallback entry. -/
theorem c2_fallback_amended_witness :
    VIDEO_FALLBACKS (getEffectiveState failedRL .response) = none :=
  (c2_fallback_amended failedRL .response 0).2 (by decide)

lemma processSpeech_store (t : String) (now : Nat) (s : HookState) :
    (processSpeech t now s).store =
      (if jsIncludes (jsTrim (jsToLowerCase t)) "hello" ||
          jsIncludes (jsTrim (jsToLowerCase t)) "hi" then
        addTranscript .character "Hello! How are you?" now
          (setState .greeting (addTranscript .user t now s.store))
      else if jsIncludes (jsTrim (jsToLowerCase t)) "weather" ||
          jsIncludes (jsTrim (jsToLowerCase t)) "today" then
        addTranscript .character "It's a beautiful day!" now
          (setState .weather (addTranscript .user t now s.store))
      else if jsIncludes (jsTrim (jsToLowerCase t)) "goodbye" ||
          jsIncludes (jsTrim (jsToLowerCase t)) "bye" then
        addTranscript .character "Goodbye! See you next time!" now
          (setState .goodbye (addTranscript .user t now s.store))
      else
        addTranscript .character "Interesting! Tell me more." now
          (setState .response (addTranscript .user t now s.store))) := by
  simp only [processSpeech]
  split <;> rfl

lemma specClassify_eq (t : String) :
    specClassify t =
      (if jsIncludes (jsTrim (jsToLowerCase t)) "hello" ||
          jsIncludes (jsTrim (jsToLowerCase t)) "hi" then
        (VideoState.greeting, "Hello! How are you?")
      else if jsIncludes (jsTrim (jsToLowerCase t)) "weather" ||
          jsIncludes (jsTrim (jsToLowerCase t)) "today" then
        (VideoState.weather, "It's a beautiful day!")
      else if jsIncludes (jsTrim (jsToLowerCase t)) "goodbye" ||
          jsIncludes (jsTrim (jsToLowerCase t)) "bye" then
        (VideoState.goodbye, "Goodbye! See you next time!")
      else
        (VideoState.response, "Interesting! Tell me more.")) := by
  simp only [specClassify, keywordGroups]
  cases h1 : jsIncludes (jsTrim (jsToLowerCase t)) "hello" <;>
    cases h2 : jsIncludes (jsTrim (jsToLowerCase t)) "hi" <;>
    cases h3 : jsIncludes (jsTrim (jsToLowerCase t)) "weather" <;>
    cases h4 : jsIncludes (jsTrim (jsToLowerCase t)) "today" <;>
    cases h5 : jsIncludes (jsTrim (jsToLowerCase t)) "goodbye" <;>
    cases h6 : jsIncludes (jsTrim (jsToLowerCase t)) "bye" <;>
    simp [List.find?, h1, h2, h3, h4, h5, h6]

/-- C5: for every recognized utterance, `processSpeech` appends the user
entry with the original text, then the fixed character reply after it, and
sets the state — both reply and state agreeing with the spec's ordered
first-match-wins case-insensitive keyword classification
(`specClassify`). -/
theorem c5_process_speech :
    ∀ (t : String) (now : Nat) (s : HookState),
      (processSpeech t now s).store.chat.transcript.map
          (fun e => (e.speaker, e.text)) =
        s.store.chat.transcript.map (fun e => (e.speaker, e.text)) ++
          [(Speaker.user, t), (Speaker.character, (specClassify t).2)] ∧
      (processSpeech t now s).store.chat.currentState = (specClassify t).1 := by
  intro t now s
  rw [processSpeech_store, specClassify_eq]
  cases hA : (jsIncludes (jsTrim (jsToLowerCase t)) "hello" ||
      jsIncludes (jsTrim (jsToLowerCase t)) "hi") <;>
    cases hB : (jsIncludes (jsTrim (jsToLowerCase t)) "weather" ||
      jsIncludes (jsTrim (jsToLowerCase t)) "today") <;>
    cases hC : (jsIncludes (jsTrim (jsToLowerCase t)) "goodbye" ||
      jsIncludes (jsTrim (jsToLowerCase t)) "bye") <;>
    simp [hA, hB, hC, addTranscript, setState, generateUniqueId]
